import Mathlib

/-!
Verification of the network-routing sidewalk-gap analysis repository.

The embedding below translates the three source files
(`database/initial_setup.py`, `sidewalk_gaps/cli.py`,
`sidewalk_gaps/segments/commands.py`) into Lean, together with
spec-modelled versions of the core operations (`generate_nodes`,
`generate_islands`, `classify_centerlines`) whose bodies live outside
the visible source tree and are therefore reconstructed from the
specification text.
-/

namespace NetworkRouting

/- ### Part 1: GeoDataFrame model and the geometry normalizer
   (from database/initial_setup.py, explode_gdf_if_multipart) -/

/-- Geometry of one feature row: a single line string or a multi-part
line string, with integer planar coordinates. -/
inductive Geometry where
  | lineString (pts : List (Int × Int))
  | multiLineString (parts : List (List (Int × Int)))
deriving DecidableEq

/-- The string reported by the geopandas geom_type accessor. -/
def Geometry.geomTypeName : Geometry → String
  | .lineString _ => "LineString"
  | .multiLineString _ => "MultiLineString"

/-- Number of vertices of a geometry (total across parts). -/
def Geometry.numVertices : Geometry → Nat
  | .lineString pts => pts.length
  | .multiLineString parts => (parts.map List.length).sum

/-- A pandas index value: a plain index or a two-level multi-index
entry as produced by GeoDataFrame.explode. -/
inductive RowIdx where
  | single (i : Int)
  | pair (i : Int) (j : Nat)
deriving DecidableEq

/-- The original (outer) index value of a row index. -/
def RowIdx.orig : RowIdx → Int
  | .single i => i
  | .pair i _ => i

/-- A cell value in a non-geometry column. -/
inductive CellVal where
  | str (s : String)
  | int (i : Int)
  | pairVal (i : Int) (j : Nat)
deriving DecidableEq

/-- One row of a GeoDataFrame: its index label, its non-geometry cells
(parallel to the column list), and its geometry. -/
structure GRow where
  idx : RowIdx
  cells : List CellVal
  geom : Geometry
deriving DecidableEq

/-- A GeoDataFrame: named non-geometry columns plus rows. -/
structure Gdf where
  columns : List String
  rows : List GRow
deriving DecidableEq

/-- Structural substring test on character lists, mirroring the Python
expression checking whether one string occurs inside another. -/
def charPrefixTest : List Char → List Char → Bool
  | [], _ => true
  | _ :: _, [] => false
  | a :: as, b :: bs => a == b && charPrefixTest as bs

/-- True when the needle occurs contiguously inside the haystack. -/
def charInfixTest (needle : List Char) : List Char → Bool
  | [] => charPrefixTest needle []
  | c :: cs => charPrefixTest needle (c :: cs) || charInfixTest needle cs

/-- The Python membership test on strings. -/
def strContains (needle hay : String) : Bool :=
  charInfixTest needle.toList hay.toList

/-- The unique geometry-type names of a GeoDataFrame, mirroring
gdf.geom_type.unique(). -/
def geomTypesUnique (g : Gdf) : List String :=
  (g.rows.map (fun r => r.geom.geomTypeName)).dedup

/-- The multipart flag computed by the loop in explode_gdf_if_multipart:
true when some unique geometry-type name contains the text Multi. -/
def isMultipart (g : Gdf) : Bool :=
  (geomTypesUnique g).any (fun t => strContains "Multi" t)

/-- gdf.explode() on one row: a single-part geometry becomes one row
with part index 0; a multi-part geometry becomes one row per part.
The row index becomes the two-level pair (original index, part index). -/
def explodeRow (r : GRow) : List GRow :=
  match r.geom with
  | .lineString pts =>
      [{ idx := RowIdx.pair r.idx.orig 0, cells := r.cells, geom := .lineString pts }]
  | .multiLineString parts =>
      parts.enum.map (fun pj =>
        { idx := RowIdx.pair r.idx.orig pj.1, cells := r.cells, geom := .lineString pj.2 })

/-- gdf.explode() on a whole GeoDataFrame. -/
def explodeGdf (g : Gdf) : Gdf :=
  { columns := g.columns, rows := g.rows.flatMap explodeRow }

/-- The cell value stored when the index is assigned into a column. -/
def idxToCell : RowIdx → CellVal
  | .single i => .int i
  | .pair i j => .pairVal i j

/-- The column assignment writing the current index into the column
named explode: pandas replaces the values in place when the column
already exists and appends a new column otherwise. -/
def setExplodeCol (g : Gdf) : Gdf :=
  if "explode" ∈ g.columns then
    { columns := g.columns,
      rows := g.rows.map (fun r =>
        { r with cells := r.cells.set (g.columns.indexOf "explode") (idxToCell r.idx) }) }
  else
    { columns := g.columns ++ ["explode"],
      rows := g.rows.map (fun r => { r with cells := r.cells ++ [idxToCell r.idx] }) }

/-- The index cells created by reset_index. Modelled for the two-level
index produced by explode; a remaining single index is padded so the
function stays total (that branch is never reached in the pipeline). -/
def idxCells : RowIdx → List CellVal
  | .single i => [.int i, .int 0]
  | .pair i j => [.int i, .int (Int.ofNat j)]

/-- gdf.reset_index() after an explode: the two index levels move into
the columns level_0 and level_1 at the front, and the rows get a fresh
sequential range index. -/
def resetIndex (g : Gdf) : Gdf :=
  { columns := "level_0" :: "level_1" :: g.columns,
    rows := g.rows.enum.map (fun nr =>
      { idx := RowIdx.single (Int.ofNat nr.1),
        cells := idxCells nr.2.idx ++ nr.2.cells,
        geom := nr.2.geom }) }

/-- The function explode_gdf_if_multipart from database/initial_setup.py:
when some geometry type contains Multi, explode, record the exploded
index in an explode column, and reset the index; otherwise return the
input unchanged. -/
def explode_gdf_if_multipart (g : Gdf) : Gdf :=
  if isMultipart g then resetIndex (setExplodeCol (explodeGdf g)) else g

/- ### Part 2: click command dispatch
   (from sidewalk_gaps/cli.py and sidewalk_gaps/segments/commands.py) -/

/-- A click command: the parameter names declared through decorators,
the parameter names of the Python callback itself, and the number of
core-operation calls its body performs when it runs. -/
structure ClickCommand where
  declaredParams : List String
  callbackParams : List String
  coreCallsInBody : Nat
deriving DecidableEq

/-- The command identify-islands: one declared argument (schema), but a
callback whose signature is (schema, database); its body makes one call
of generate_islands. -/
def identify_islands_cmd : ClickCommand :=
  { declaredParams := ["schema"],
    callbackParams := ["schema", "database"],
    coreCallsInBody := 1 }

/-- The command analyze-segments: one declared argument (schema) and a
callback of one parameter; its body makes one call of
classify_centerlines. -/
def analyze_segments_cmd : ClickCommand :=
  { declaredParams := ["schema"],
    callbackParams := ["schema"],
    coreCallsInBody := 1 }

/-- Invocation of a click command on an argument vector: click parses
one value per declared parameter and calls the callback with exactly
those keyword arguments. Python accepts the call only when the keyword
set matches the callback parameter set; otherwise it raises a
TypeError before the body runs, so no core call happens. The result is
the number of core calls performed, or the raised error. -/
def invokeClick (c : ClickCommand) (argv : List String) : Except String Nat :=
  if argv.length ≠ c.declaredParams.length then
    .error "UsageError"
  else if c.callbackParams.all (fun p => p ∈ c.declaredParams)
       && c.declaredParams.all (fun p => p ∈ c.callbackParams) then
    .ok c.coreCallsInBody
  else
    .error "TypeError"

/- ### Part 3: Node Builder, modelled from the spec
   (generate_nodes is imported from the helpers module, which is not
   part of the visible source tree) -/

/-- Modelled from the spec: build_nodes section 4.2; the helpers module
holding generate_nodes is missing from the source tree. Endpoints of a
line feature are its first and last vertices. -/
def lineEndpoints (ln : List (Int × Int)) : List (Int × Int) :=
  match ln.head?, ln.getLast? with
  | some a, some b => [a, b]
  | _, _ => []

/-- Modelled from the spec: all endpoints of the input lines, in the
deterministic traversal order of the input sequence. -/
def endpointsOf (lines : List (List (Int × Int))) : List (Int × Int) :=
  lines.flatMap lineEndpoints

/-- Modelled from the spec: snapping an endpoint to a fixed spatial
tolerance; coordinates are mapped to their tolerance-sized grid cell so
that two endpoints merge exactly when their snapped coordinates are
equal. -/
def snapPt (t : Int) (p : Int × Int) : Int × Int :=
  (p.1 / t, p.2 / t)

/-- The distinct elements of a list in order of first appearance. -/
def firstOccurrences [DecidableEq α] (l : List α) : List α :=
  l.foldl (fun acc p => if p ∈ acc then acc else acc ++ [p]) []

/-- A topological node: a sequential identifier and a snapped
coordinate. -/
structure SWNode where
  id : Nat
  coord : Int × Int
deriving DecidableEq

/-- Modelled from the spec: the deduplicated node table, identifiers
assigned by order of first appearance of the snapped coordinates. -/
def buildNodesList (t : Int) (lines : List (List (Int × Int))) : List SWNode :=
  (firstOccurrences ((endpointsOf lines).map (snapPt t))).enum.map
    (fun ic => { id := ic.1, coord := ic.2 })

/-- Position of the first occurrence of an element in a list. -/
def posOf [DecidableEq α] (a : α) : List α → Nat
  | [] => 0
  | b :: bs => if b = a then 0 else posOf a bs + 1

/-- Modelled from the spec: the node identifier an endpoint resolves
to, namely the position of its snapped coordinate in the node table. -/
def nodeIdOf (t : Int) (lines : List (List (Int × Int))) (p : Int × Int) : Nat :=
  posOf (snapPt t p) (firstOccurrences ((endpointsOf lines).map (snapPt t)))

/-- Modelled from the spec: generate_nodes returns the node table plus
the endpoint-to-node mapping. -/
def generate_nodes (t : Int) (lines : List (List (Int × Int))) :
    List SWNode × List ((Int × Int) × Nat) :=
  (buildNodesList t lines, (endpointsOf lines).map (fun p => (p, nodeIdOf t lines p)))

/-- Squared Euclidean distance between two endpoints. -/
def distSq (p q : Int × Int) : Int :=
  (p.1 - q.1) ^ 2 + (p.2 - q.2) ^ 2

/- ### Part 4: Island Detector, modelled from the spec
   (generate_islands lives in segments/generate_islands.py, which is
   not part of the visible source tree) -/

/-- Whether an existing group is linked to the incoming feature by the
undirected adjacency relation. -/
def groupLinked (adj : Nat → Nat → Bool) (f : Nat) (g : List Nat) : Bool :=
  g.any (fun x => adj f x || adj x f)

/-- One step of island construction: the incoming feature joins and
merges every group it is adjacent to, or starts a fresh group. -/
def mergeStep (adj : Nat → Nat → Bool) (groups : List (List Nat)) (f : Nat) :
    List (List Nat) :=
  (f :: (groups.filter (groupLinked adj f)).flatten)
    :: groups.filter (fun g => !groupLinked adj f g)

/-- Modelled from the spec: generate_islands section 4.4, connected
components of the adjacency relation over the sidewalk features,
computed by incremental merging in input order. -/
def generate_islands (adj : Nat → Nat → Bool) (features : List Nat) :
    List (List Nat) :=
  features.foldl (mergeStep adj) []

/- ### Part 5: Coverage Classifier, modelled from the spec
   (classify_centerlines lives in segments/centerline_sidewalk_coverage.py,
   which is not part of the visible source tree) -/

/-- A nearby sidewalk candidate for one centerline: its distance from
the centerline, whether it passes the parallelism test, and the length
of its overlap once projected onto the centerline. -/
structure SidewalkOverlap where
  distance : ℚ
  parallel : Bool
  overlapLen : ℚ
deriving DecidableEq

/-- The fixed configuration scalars of the coverage classifier. -/
structure CoverageParams where
  bufferDist : ℚ
  minOverlap : ℚ
  fullThreshold : ℚ
deriving DecidableEq

/-- Modelled from the spec: the length contributed by one sidewalk
candidate; only in-buffer, parallel geometry qualifies, and
near-zero-length overlaps (at most minOverlap) contribute zero. -/
def contribution (P : CoverageParams) (s : SidewalkOverlap) : ℚ :=
  if s.distance ≤ P.bufferDist ∧ s.parallel = true ∧ P.minOverlap < s.overlapLen then
    s.overlapLen
  else 0

/-- Modelled from the spec: coverage fraction, the quotient of
qualifying sidewalk length over centerline length, clamped to the unit
interval. -/
def coverageFraction (P : CoverageParams) (clLen : ℚ) (sws : List SidewalkOverlap) : ℚ :=
  min 1 (max 0 (((sws.map (contribution P)).sum) / clLen))

/-- Modelled from the spec: the discrete classification from the
fraction and the fixed thresholds. -/
def classifyFraction (P : CoverageParams) (f : ℚ) : String :=
  if P.fullThreshold ≤ f then "full" else if 0 < f then "partial" else "none"

/-- A classified centerline record. -/
structure CenterlineRecord where
  length : ℚ
  frac : ℚ
  label : String
deriving DecidableEq

/-- Modelled from the spec: classify_centerlines on one centerline. -/
def classify_centerlines (P : CoverageParams) (clLen : ℚ)
    (sws : List SidewalkOverlap) : CenterlineRecord :=
  { length := clLen,
    frac := coverageFraction P clLen sws,
    label := classifyFraction P (coverageFraction P clLen sws) }

/- ### Part 6: heap model for the mutation claim -/

/-- A heap of GeoDataFrame objects; references are list positions. -/
structure PyHeap where
  cells : List Gdf
deriving DecidableEq

/-- The empty GeoDataFrame used as an out-of-range default. -/
def defaultGdf : Gdf := { columns := [], rows := [] }

/-- The statement sequence of explode_gdf_if_multipart executed against
an object heap: the local name gdf is rebound to fresh objects by
explode() and reset_index(), while the column assignment mutates the
object the local name points at. The caller keeps the reference r. -/
def explode_gdf_if_multipart_proc (h : PyHeap) (r : Nat) : PyHeap × Nat :=
  let g := h.cells.getD r defaultGdf
  if isMultipart g then
    let h1 := PyHeap.mk (h.cells ++ [explodeGdf g])
    let r1 := h.cells.length
    let g1 := h1.cells.getD r1 defaultGdf
    let h2 := PyHeap.mk (h1.cells.set r1 (setExplodeCol g1))
    let g2 := h2.cells.getD r1 defaultGdf
    let h3 := PyHeap.mk (h2.cells ++ [resetIndex g2])
    (h3, h2.cells.length)
  else
    (h, r)

/- ### Part 7: concrete inputs used by counterexamples and witnesses -/

/-- A GeoDataFrame whose single feature has fewer than 2 vertices. -/
def gdfDegenerate : Gdf :=
  { columns := ["name"],
    rows := [{ idx := .single 0, cells := [.str "a"], geom := .lineString [] }] }

/-- A single-part GeoDataFrame that already carries a column named
explode. -/
def gdfExplodeCol : Gdf :=
  { columns := ["explode"],
    rows := [{ idx := .single 0, cells := [.int 5], geom := .lineString [(0, 0), (1, 1)] }] }

/-- A GeoDataFrame with one two-part multi-line feature. -/
def gdfMulti : Gdf :=
  { columns := ["name"],
    rows := [{ idx := .single 7, cells := [.str "a"],
               geom := .multiLineString [[(0, 0), (1, 0)], [(2, 0), (3, 0)]] }] }

/-- A multi-part GeoDataFrame that already carries a column named
explode, holding an attribute value of its own. -/
def gdfMultiExplodeCol : Gdf :=
  { columns := ["explode"],
    rows := [{ idx := .single 0, cells := [.str "keep"],
               geom := .multiLineString [[(0, 0), (1, 0)], [(2, 0), (3, 0)]] }] }

/- ### Part 8: claims about the geometry normalizer -/

/-- Claim C1, counterexample: a feature with fewer than 2 vertices is
passed through unchanged by explode_gdf_if_multipart; no error of any
kind is raised, contradicting the claimed GeometryError behaviour. -/
theorem explode_passes_degenerate_through :
    (gdfDegenerate.rows.all (fun r => decide (r.geom.numVertices < 2)) = true)
    ∧ explode_gdf_if_multipart gdfDegenerate = gdfDegenerate := by
  decide

/-- Claim C1, amended: explode_gdf_if_multipart performs no geometry
validation at all; any input without multi-part geometries, including
features with fewer than 2 vertices or zero-length geometry, is
returned unchanged and no error is raised. -/
theorem explode_gdf_no_validation (g : Gdf) (h : isMultipart g = false) :
    explode_gdf_if_multipart g = g := by
  simp [explode_gdf_if_multipart, h]

/-- Witness for the amended claim C1 at a degenerate concrete input. -/
theorem explode_gdf_no_validation_witness :
    explode_gdf_if_multipart gdfDegenerate = gdfDegenerate :=
  explode_gdf_no_validation gdfDegenerate (by decide)

/-- The parts of a geometry: a single-part line is one part, a
multi-part line is its list of parts. -/
def partsOf : Geometry → List (List (Int × Int))
  | .lineString pts => [pts]
  | .multiLineString ps => ps

/-- Spec-shaped description of the exploded rows: one row per part of
each input feature, carrying the original cells plus a lineage cell
recording the original index and the part index. -/
def explodedSpecRows (g : Gdf) : List GRow :=
  g.rows.flatMap (fun r =>
    (partsOf r.geom).enum.map (fun pj =>
      { idx := RowIdx.pair r.idx.orig pj.1,
        cells := r.cells ++ [CellVal.pairVal r.idx.orig pj.1],
        geom := Geometry.lineString pj.2 }))

theorem explodeRow_map_set (r : GRow) :
    (explodeRow r).map (fun r2 => { r2 with cells := r2.cells ++ [idxToCell r2.idx] }) =
      (partsOf r.geom).enum.map (fun pj =>
        { idx := RowIdx.pair r.idx.orig pj.1,
          cells := r.cells ++ [CellVal.pairVal r.idx.orig pj.1],
          geom := Geometry.lineString pj.2 }) := by
  cases hg : r.geom <;>
    simp [explodeRow, partsOf, hg, idxToCell, List.map_map, Function.comp]

/-- Claim C2, counterexample: when the input already carries a column
named explode, the lineage assignment overwrites that column, so the
original attribute values are not all preserved. -/
theorem explode_overwrites_existing_column :
    isMultipart gdfMultiExplodeCol = true
    ∧ (gdfMultiExplodeCol.rows.all
        (fun r => decide (CellVal.str "keep" ∈ r.cells)) = true)
    ∧ ((explode_gdf_if_multipart gdfMultiExplodeCol).rows.all
        (fun r => decide (CellVal.str "keep" ∉ r.cells)) = true) := by
  decide

/-- Claim C2, amended: for a multi-part input none of whose columns is
already named explode, explode_gdf_if_multipart returns exactly one
single-part row per part of each feature, preserving the original
cells and recording the original index together with the part index
both in the added explode column and in the reset index columns. -/
theorem explode_multipart_lineage (g : Gdf) (hm : isMultipart g = true)
    (hc : "explode" ∉ g.columns) :
    explode_gdf_if_multipart g =
      { columns := "level_0" :: "level_1" :: (g.columns ++ ["explode"]),
        rows := (explodedSpecRows g).enum.map (fun nr =>
          { idx := RowIdx.single (Int.ofNat nr.1),
            cells := idxCells nr.2.idx ++ nr.2.cells,
            geom := nr.2.geom }) } := by
  have key : (explodeGdf g).rows.map
      (fun r => { r with cells := r.cells ++ [idxToCell r.idx] }) = explodedSpecRows g := by
    unfold explodeGdf explodedSpecRows
    rw [List.map_flatMap]
    exact congrArg g.rows.flatMap (funext explodeRow_map_set)
  unfold explode_gdf_if_multipart
  rw [hm]
  simp only [if_true]
  unfold setExplodeCol
  have hcols : (explodeGdf g).columns = g.columns := rfl
  rw [hcols, if_neg hc]
  unfold resetIndex
  rw [key]

/-- Witness for the amended claim C2 at a concrete two-part input. -/
theorem explode_multipart_lineage_witness :
    explode_gdf_if_multipart gdfMulti =
      { columns := "level_0" :: "level_1" :: (gdfMulti.columns ++ ["explode"]),
        rows := (explodedSpecRows gdfMulti).enum.map (fun nr =>
          { idx := RowIdx.single (Int.ofNat nr.1),
            cells := idxCells nr.2.idx ++ nr.2.cells,
            geom := nr.2.geom }) } :=
  explode_multipart_lineage gdfMulti (by decide) (by decide)

/-- Claim C10, counterexample: an input with no multi-part geometry but
with a pre-existing explode column is returned with that column still
present, so the output carries an explode column even though no input
geometry was multi-part. -/
theorem explode_column_without_multipart :
    isMultipart gdfExplodeCol = false
    ∧ "explode" ∈ (explode_gdf_if_multipart gdfExplodeCol).columns := by
  decide

/-- Claim C10, amended: when no geometry type contains Multi the input
is returned unchanged, same rows and same index; consequently, for
inputs that do not already carry a column named explode, the output has
an explode column if and only if some input geometry was multi-part. -/
theorem explode_column_iff_multipart (g : Gdf) (hc : "explode" ∉ g.columns) :
    (isMultipart g = false → explode_gdf_if_multipart g = g)
    ∧ ("explode" ∈ (explode_gdf_if_multipart g).columns ↔ isMultipart g = true) := by
  constructor
  · intro hm
    simp [explode_gdf_if_multipart, hm]
  · cases hm : isMultipart g
    · simp only [explode_gdf_if_multipart, hm, if_false]
      simp [hc]
    · simp only [explode_gdf_if_multipart, hm, if_true]
      unfold resetIndex setExplodeCol explodeGdf
      simp [hc]

/-- Witness for the amended claim C10 at a concrete multi-part input. -/
theorem explode_column_iff_multipart_witness :
    "explode" ∈ (explode_gdf_if_multipart gdfMulti).columns ↔ isMultipart gdfMulti = true :=
  (explode_column_iff_multipart gdfMulti (by decide)).2

/- ### Part 9: the normalizer does not mutate its input (C9) -/

/-- Claim C9: executing the statements of explode_gdf_if_multipart
against the object heap leaves the heap cell of the caller's input
unchanged, and the object returned to the caller is exactly the value
computed by the pure function explode_gdf_if_multipart. Every write
lands on a freshly allocated object. -/
theorem getD_concat_len (l : List Gdf) (E : Gdf) :
    (l ++ [E]).getD l.length defaultGdf = E := by
  simp [List.getD, List.getElem?_concat_length]

theorem getD_set_at_len (l : List Gdf) (E S : Gdf) :
    ((l ++ [E]).set l.length S).getD l.length defaultGdf = S := by
  have hlt : l.length < (l ++ [E]).length := by simp
  simp [List.getD, List.getElem?_set_self, hlt]

theorem getD_kept_below (l : List Gdf) (r : Nat) (hr : r < l.length) (E S R : Gdf) :
    ((((l ++ [E]).set l.length S) ++ [R]).getD r defaultGdf) = l.getD r defaultGdf := by
  simp only [List.getD, List.get?_eq_getElem?]
  rw [List.getElem?_append_left (by simp; omega),
    List.getElem?_set_ne (by omega), List.getElem?_append_left hr]

theorem getD_fresh_result (l : List Gdf) (E S R : Gdf) :
    ((((l ++ [E]).set l.length S) ++ [R]).getD
        ((l ++ [E]).set l.length S).length defaultGdf) = R :=
  getD_concat_len ((l ++ [E]).set l.length S) R

theorem explode_proc_no_input_mutation (h : PyHeap) (r : Nat)
    (hr : r < h.cells.length) :
    ((explode_gdf_if_multipart_proc h r).1.cells.getD r defaultGdf
        = h.cells.getD r defaultGdf)
    ∧ ((explode_gdf_if_multipart_proc h r).1.cells.getD
          (explode_gdf_if_multipart_proc h r).2 defaultGdf
        = explode_gdf_if_multipart (h.cells.getD r defaultGdf)) := by
  unfold explode_gdf_if_multipart_proc
  cases hm : isMultipart (h.cells.getD r defaultGdf)
  · have hne : ¬ (isMultipart (h.cells.getD r defaultGdf) = true) := by
      rw [hm]
      exact Bool.false_ne_true
    constructor
    · rw [if_neg hne]
    · rw [if_neg hne]
      exact (if_neg hne).symm
  · simp only [hm, if_true]
    rw [getD_concat_len]
    rw [getD_set_at_len]
    constructor
    · exact getD_kept_below h.cells r hr _ _ _
    · rw [getD_fresh_result]
      have hpos : isMultipart (h.cells.getD r defaultGdf) = true := hm
      exact (if_pos hpos).symm

/-- A one-cell heap holding the concrete multi-part GeoDataFrame. -/
def heapMulti : PyHeap := { cells := [gdfMulti] }

/-- Witness for claim C9 at a concrete heap and reference. -/
theorem explode_proc_no_input_mutation_witness :
    ((explode_gdf_if_multipart_proc heapMulti 0).1.cells.getD 0 defaultGdf
        = heapMulti.cells.getD 0 defaultGdf)
    ∧ ((explode_gdf_if_multipart_proc heapMulti 0).1.cells.getD
          (explode_gdf_if_multipart_proc heapMulti 0).2 defaultGdf
        = explode_gdf_if_multipart (heapMulti.cells.getD 0 defaultGdf)) :=
  explode_proc_no_input_mutation heapMulti 0 (by decide)

/- ### Part 10: the identify-islands command (C3) -/

/-- Claim C3: the claim is refuted by the code. For every schema
argument, invoking identify-islands raises a TypeError before the body
runs, because the callback demands a second parameter named database
that click never supplies; generate_islands is never called and the
command always fails. The sibling command analyze-segments, whose
callback signature matches its declared argument, succeeds with
exactly one core call. -/
theorem identify_islands_always_type_error (schema : String) :
    invokeClick identify_islands_cmd [schema] = .error "TypeError"
    ∧ invokeClick analyze_segments_cmd [schema] = .ok 1 := by
  constructor <;>
    simp [invokeClick, identify_islands_cmd, analyze_segments_cmd]

/- ### Part 11: Node Builder claims (C4, C7) -/

theorem mem_foldl_firstOcc [DecidableEq α] (l : List α) (acc : List α) (a : α) :
    (a ∈ l.foldl (fun acc2 p => if p ∈ acc2 then acc2 else acc2 ++ [p]) acc)
      ↔ a ∈ acc ∨ a ∈ l := by
  induction l generalizing acc with
  | nil => simp
  | cons p rest ih =>
    simp only [List.foldl_cons]
    rw [ih]
    by_cases hp : p ∈ acc <;> by_cases hap : a = p
    all_goals simp [hp, hap, List.mem_cons]

theorem mem_firstOccurrences [DecidableEq α] (l : List α) (a : α) :
    a ∈ firstOccurrences l ↔ a ∈ l := by
  unfold firstOccurrences
  rw [mem_foldl_firstOcc]
  simp

/-- The concrete line set used by the node-builder counterexample:
four endpoints whose snapped cells are pairwise distinct even though
the first endpoints of the two lines are closer than the tolerance. -/
def cexLines : List (List (Int × Int)) := [[(1, 0), (9, 9)], [(2, 0), (7, 7)]]

/-- Claim C4, counterexample: with tolerance 2, the endpoints (1,0) and
(2,0) are at distance 1, strictly less than the tolerance, yet they
straddle a snapping-cell boundary and resolve to different node
identifiers. -/
theorem snap_close_points_distinct_nodes :
    distSq (1, 0) (2, 0) < 2 ^ 2
    ∧ (1, 0) ∈ endpointsOf cexLines
    ∧ (2, 0) ∈ endpointsOf cexLines
    ∧ nodeIdOf 2 cexLines (1, 0) ≠ nodeIdOf 2 cexLines (2, 0) := by
  decide

/-- Claim C4, amended: two endpoints of the input lines resolve to the
same node identifier exactly when their snapped coordinates are equal;
in particular endpoints within tolerance of each other can receive
distinct identifiers when they straddle a cell boundary. -/
theorem posOf_inj [DecidableEq α] {l : List α} {x y : α}
    (hx : x ∈ l) (hy : y ∈ l) : posOf x l = posOf y l ↔ x = y := by
  induction l with
  | nil => cases hx
  | cons b bs ih =>
    by_cases hbx : b = x <;> by_cases hby : b = y
    · subst hbx
      subst hby
      simp
    · subst hbx
      have h1 : posOf b (b :: bs) = 0 := by simp [posOf]
      have h2 : posOf y (b :: bs) = posOf y bs + 1 := by simp [posOf, hby]
      rw [h1, h2]
      constructor
      · intro h3
        exact absurd h3 (by omega)
      · intro h3
        exact absurd h3 hby
    · subst hby
      have h1 : posOf b (b :: bs) = 0 := by simp [posOf]
      have h2 : posOf x (b :: bs) = posOf x bs + 1 := by simp [posOf, hbx]
      rw [h1, h2]
      constructor
      · intro h3
        exact absurd h3 (by omega)
      · intro h3
        exact absurd h3.symm hbx
    · have hx2 : x ∈ bs := by
        rcases List.mem_cons.mp hx with h2 | h2
        · exact absurd h2.symm hbx
        · exact h2
      have hy2 : y ∈ bs := by
        rcases List.mem_cons.mp hy with h2 | h2
        · exact absurd h2.symm hby
        · exact h2
      have h1 : posOf x (b :: bs) = posOf x bs + 1 := by simp [posOf, hbx]
      have h2 : posOf y (b :: bs) = posOf y bs + 1 := by simp [posOf, hby]
      rw [h1, h2, Nat.add_right_cancel_iff]
      exact ih hx2 hy2

theorem node_id_eq_iff_snap_eq (t : Int) (lines : List (List (Int × Int)))
    (p q : Int × Int) (hp : p ∈ endpointsOf lines) (hq : q ∈ endpointsOf lines) :
    nodeIdOf t lines p = nodeIdOf t lines q ↔ snapPt t p = snapPt t q := by
  unfold nodeIdOf
  apply posOf_inj
  · rw [mem_firstOccurrences]
    exact List.mem_map_of_mem (snapPt t) hp
  · rw [mem_firstOccurrences]
    exact List.mem_map_of_mem (snapPt t) hq

/-- Witness for the amended claim C4 at two concrete endpoints. -/
theorem node_id_eq_iff_snap_eq_witness :
    nodeIdOf 2 cexLines (1, 0) = nodeIdOf 2 cexLines (9, 9)
      ↔ snapPt 2 (1, 0) = snapPt 2 (9, 9) :=
  node_id_eq_iff_snap_eq 2 cexLines (1, 0) (9, 9) (by decide) (by decide)

/-- Claim C7: generate_nodes is deterministic, equal inputs give equal
node tables, and the identifiers are assigned sequentially in order of
first appearance, so they are exactly the positions 0, 1, 2, ... of the
deduplicated traversal. -/
theorem generate_nodes_deterministic (t : Int) (l1 l2 : List (List (Int × Int)))
    (h : l1 = l2) :
    generate_nodes t l1 = generate_nodes t l2
    ∧ (generate_nodes t l1).1.map SWNode.id
        = List.range (generate_nodes t l1).1.length := by
  subst h
  refine ⟨rfl, ?_⟩
  unfold generate_nodes buildNodesList
  rw [List.map_map]
  have hcomp : (SWNode.id ∘ fun ic : Nat × (Int × Int) => SWNode.mk ic.1 ic.2)
      = Prod.fst := rfl
  rw [hcomp, List.enum_map_fst, List.length_map, List.enum_length]

/-- Witness for claim C7 at a concrete input. -/
theorem generate_nodes_deterministic_witness :
    generate_nodes 2 cexLines = generate_nodes 2 cexLines
    ∧ (generate_nodes 2 cexLines).1.map SWNode.id
        = List.range (generate_nodes 2 cexLines).1.length :=
  generate_nodes_deterministic 2 cexLines cexLines rfl

/- ### Part 12: Island Detector claim (C5) -/

theorem mergeStep_flatten_perm (adj : Nat → Nat → Bool) (G : List (List Nat))
    (f : Nat) : ((mergeStep adj G f).flatten).Perm (f :: G.flatten) := by
  unfold mergeStep
  rw [List.flatten_cons]
  show List.Perm (f :: ((G.filter (groupLinked adj f)).flatten
    ++ (G.filter (fun g => !groupLinked adj f g)).flatten)) (f :: G.flatten)
  apply List.Perm.cons
  rw [← List.flatten_append]
  exact (List.filter_append_perm (groupLinked adj f) G).flatten

theorem foldl_mergeStep_flatten_perm (adj : Nat → Nat → Bool) (l : List Nat)
    (init : List (List Nat)) :
    ((l.foldl (mergeStep adj) init).flatten).Perm (init.flatten ++ l) := by
  induction l generalizing init with
  | nil => simp
  | cons f rest ih =>
    rw [List.foldl_cons]
    refine (ih (mergeStep adj init f)).trans ?_
    refine (List.Perm.append_right rest (mergeStep_flatten_perm adj init f)).trans ?_
    exact List.perm_middle.symm

theorem countP_mem_of_count_flatten (f : Nat) (G : List (List Nat))
    (h : (G.flatten).count f = 1) :
    G.countP (fun g => decide (f ∈ g)) = 1 := by
  induction G with
  | nil => simp at h
  | cons g gs ih =>
    rw [List.flatten_cons, List.count_append] at h
    rw [List.countP_cons]
    by_cases hf : f ∈ g
    · have h1 : 0 < g.count f := List.count_pos_iff.mpr hf
      have hz : (gs.flatten).count f = 0 := by omega
      have hnot : f ∉ gs.flatten := by
        intro hmem
        have := List.count_pos_iff.mpr hmem
        omega
      have hcz : gs.countP (fun g2 => decide (f ∈ g2)) = 0 := by
        rw [List.countP_eq_zero]
        intro g2 hg2
        simp only [decide_eq_true_eq]
        intro hfg2
        exact hnot (List.mem_flatten.mpr ⟨g2, hg2, hfg2⟩)
      simp [hf, hcz]
    · have h0 : g.count f = 0 := List.count_eq_zero.mpr hf
      rw [h0] at h
      have hrec := ih (by omega)
      simp [hf, hrec]

theorem groupLinked_false_of_no_adjacency (adj : Nat → Nat → Bool) (f : Nat)
    (g : List Nat) (h : ∀ x ∈ g, adj f x = false ∧ adj x f = false) :
    groupLinked adj f g = false := by
  unfold groupLinked
  rw [List.any_eq_false]
  intro x hx
  simp [(h x hx).1, (h x hx).2]

theorem singleton_preserved (adj : Nat → Nat → Bool) (suf : List Nat)
    (G : List (List Nat)) (f : Nat) (hG : [f] ∈ G)
    (hnolink : ∀ g ∈ suf, adj g f = false ∧ adj f g = false) :
    [f] ∈ suf.foldl (mergeStep adj) G := by
  induction suf generalizing G with
  | nil => exact hG
  | cons g rest ih =>
    rw [List.foldl_cons]
    apply ih
    · unfold mergeStep
      apply List.mem_cons_of_mem
      apply List.mem_filter.mpr
      refine ⟨hG, ?_⟩
      have hl : groupLinked adj g [f] = false := by
        apply groupLinked_false_of_no_adjacency
        intro x hx
        rw [List.mem_singleton] at hx
        subst hx
        exact ⟨(hnolink g (by simp)).1, (hnolink g (by simp)).2⟩
      simp [hl]
    · intro x hx
      exact hnolink x (by simp [hx])

/-- Claim C5: the island groups partition the feature set. The flattened
groups are a permutation of the input, every input feature lies in
exactly one group (so distinct groups are disjoint), and a feature with
no neighbors forms its own singleton group. -/
theorem generate_islands_partition (adj : Nat → Nat → Bool) (l : List Nat)
    (hnd : l.Nodup) :
    ((generate_islands adj l).flatten).Perm l
    ∧ (∀ f ∈ l, (generate_islands adj l).countP (fun g => decide (f ∈ g)) = 1)
    ∧ (∀ f ∈ l, (∀ x ∈ l, x ≠ f → adj f x = false ∧ adj x f = false) →
        [f] ∈ generate_islands adj l) := by
  have hperm : ((generate_islands adj l).flatten).Perm l := by
    have h2 := foldl_mergeStep_flatten_perm adj l []
    simpa [generate_islands] using h2
  refine ⟨hperm, ?_, ?_⟩
  · intro f hf
    apply countP_mem_of_count_flatten
    rw [hperm.count_eq]
    exact List.count_eq_one_of_mem hnd hf
  · intro f hf hiso
    obtain ⟨pre, suf, rfl⟩ := List.append_of_mem hf
    rw [List.nodup_append] at hnd
    obtain ⟨hnp, hns, hdisj⟩ := hnd
    have hfpre : f ∉ pre := fun hc => hdisj hc (by simp)
    have hfsuf : f ∉ suf := (List.nodup_cons.mp hns).1
    unfold generate_islands
    rw [List.foldl_append, List.foldl_cons]
    have hGperm : ((pre.foldl (mergeStep adj) []).flatten).Perm pre := by
      have h2 := foldl_mergeStep_flatten_perm adj pre []
      simpa using h2
    have hstep : mergeStep adj (pre.foldl (mergeStep adj) []) f
        = [f] :: pre.foldl (mergeStep adj) [] := by
      have hall : ∀ g ∈ pre.foldl (mergeStep adj) [], groupLinked adj f g = false := by
        intro g hg
        apply groupLinked_false_of_no_adjacency
        intro x hx
        have hxpre : x ∈ pre := hGperm.mem_iff.mp (List.mem_flatten.mpr ⟨g, hg, hx⟩)
        have hxl : x ∈ pre ++ f :: suf := by simp [hxpre]
        have hxf : x ≠ f := fun he => hfpre (he ▸ hxpre)
        exact hiso x hxl hxf
      unfold mergeStep
      rw [List.filter_eq_nil_iff.mpr (fun g hg => by simp [hall g hg]),
        List.filter_eq_self.mpr (fun g hg => by simp [hall g hg])]
      rfl
    rw [hstep]
    apply singleton_preserved
    · simp
    · intro g hg
      have hgl : g ∈ pre ++ f :: suf := by simp [hg]
      have hgf : g ≠ f := fun he => hfsuf (he ▸ hg)
      exact ⟨(hiso g hgl hgf).2, (hiso g hgl hgf).1⟩

/-- The adjacency relation of the island witness: features 0 and 1 are
adjacent, feature 2 is isolated. -/
def adjW : Nat → Nat → Bool :=
  fun x y => (x == 0 && y == 1) || (x == 1 && y == 0)

/-- Witness for claim C5: with features 0, 1, 2 and adjacency only
between 0 and 1, the isolated feature 2 forms its own singleton
island. -/
theorem generate_islands_partition_witness :
    [2] ∈ generate_islands adjW [0, 1, 2] :=
  (generate_islands_partition adjW [0, 1, 2] (by decide)).2.2 2 (by decide) (by decide)

/- ### Part 13: Coverage Classifier claims (C6, C8) -/

/-- Claim C6: the coverage fraction is always within the unit interval,
and the discrete label of a classified centerline is exactly the fixed
threshold function applied to its fraction. -/
theorem classify_centerlines_bounds (P : CoverageParams) (clLen : ℚ)
    (sws : List SidewalkOverlap) :
    0 ≤ coverageFraction P clLen sws
    ∧ coverageFraction P clLen sws ≤ 1
    ∧ (classify_centerlines P clLen sws).label
        = classifyFraction P (coverageFraction P clLen sws) := by
  refine ⟨?_, ?_, rfl⟩
  · unfold coverageFraction
    exact le_min zero_le_one (le_max_left 0 _)
  · unfold coverageFraction
    exact min_le_left 1 _

theorem contribution_zero_of_far (P : CoverageParams) (s : SidewalkOverlap)
    (h : P.bufferDist < s.distance) : contribution P s = 0 := by
  unfold contribution
  rw [if_neg]
  intro hc
  exact absurd hc.1 (not_le.mpr h)

/-- Claim C8: a centerline with no sidewalk inside the buffer distance
gets coverage fraction exactly 0 and the label none; the computation is
total, with no division-by-zero failure even for a zero-length
centerline. -/
theorem classify_no_nearby_sidewalk (P : CoverageParams) (clLen : ℚ)
    (sws : List SidewalkOverlap)
    (hfar : ∀ s ∈ sws, P.bufferDist < s.distance)
    (hth : 0 < P.fullThreshold) :
    coverageFraction P clLen sws = 0
    ∧ (classify_centerlines P clLen sws).label = "none" := by
  have hz : (sws.map (contribution P)).sum = 0 := by
    apply List.sum_eq_zero
    intro x hx
    rw [List.mem_map] at hx
    obtain ⟨s, hs, rfl⟩ := hx
    exact contribution_zero_of_far P s (hfar s hs)
  have hcf : coverageFraction P clLen sws = 0 := by
    unfold coverageFraction
    rw [hz, zero_div, max_self, min_eq_right zero_le_one]
  refine ⟨hcf, ?_⟩
  show classifyFraction P (coverageFraction P clLen sws) = "none"
  rw [hcf]
  unfold classifyFraction
  rw [if_neg (not_le.mpr hth), if_neg (lt_irrefl 0)]

/-- The concrete classifier configuration used by the witness. -/
def paramsW : CoverageParams :=
  { bufferDist := 1, minOverlap := 0, fullThreshold := 1 }

/-- The concrete sidewalk candidate used by the witness, lying outside
the buffer distance. -/
def overlapW : SidewalkOverlap :=
  { distance := 2, parallel := true, overlapLen := 3 }

/-- Witness for claim C8 at a concrete centerline with one out-of-buffer
sidewalk candidate. -/
theorem classify_no_nearby_sidewalk_witness :
    coverageFraction paramsW 5 [overlapW] = 0
    ∧ (classify_centerlines paramsW 5 [overlapW]).label = "none" :=
  classify_no_nearby_sidewalk paramsW 5 [overlapW]
    (fun s hs => by
      rw [List.mem_singleton] at hs
      subst hs
      show (1 : ℚ) < 2
      exact one_lt_two)
    zero_lt_one

end NetworkRouting
